import Mathlib

/-!
Shallow embedding of the resilient-service-system circuit breaker.

The shared DynamoDB item (key `SYSTEM_STATE`) is modelled as an `Item` whose
attributes are all optional, because the JavaScript code creates attributes
lazily (an `UpdateCommand` only sets the attributes named in its update
expression).  The store is `Option Item`: `none` means no record exists yet.
Timestamps (`lastUpdated`, from `new Date().toISOString()`) are modelled as an
abstract `Nat` value `now` passed to every operation.

Embedded code:
* `functions/mutator.js` — `handler`, `handleFailure`, `handleSuccess`,
  `handleReset`, `THRESHOLDS`.
* the get-state function — `getState` (point read of the singleton key).
-/

namespace ResilientService

/-- One stored DynamoDB item.  Every attribute is optional: the mutator's
update expressions only create the attributes they mention. -/
structure Item where
  errorCount : Option Nat
  currentLevel : Option Nat
  recoveryPoints : Option Nat
  lastUpdated : Option Nat
deriving DecidableEq, Repr

/-- The store: the singleton record, or `none` when no record exists. -/
abbrev Store := Option Item

/-- JavaScript `x || d` on a possibly-undefined number: `undefined` and `0`
are falsy and give `d`; any other number is returned as is. -/
def jsOr (x : Option Nat) (d : Nat) : Nat :=
  match x with
  | none => d
  | some n => if n = 0 then d else n

/-- `THRESHOLDS` from mutator.js. -/
structure Thresholds where
  DEGRADE_TO_L2 : Nat
  DEGRADE_TO_L3 : Nat
  RECOVERY_POINTS : Nat
deriving DecidableEq, Repr

def THRESHOLDS : Thresholds :=
  { DEGRADE_TO_L2 := 5, DEGRADE_TO_L3 := 10, RECOVERY_POINTS := 10 }

/-- The object returned by the mutator handlers.  `recoveryPoints` and
`message` are optional because `handleFailure` returns no `recoveryPoints`
key and only `handleReset` returns a `message` key. -/
structure MutOut where
  action : String
  errorCount : Nat
  currentLevel : Nat
  recoveryPoints : Option Nat
  levelChanged : Bool
  lastUpdated : Nat
  message : Option String
deriving DecidableEq, Repr

/-- `handleFailure` from mutator.js.  First update: atomically
`errorCount = if_not_exists(errorCount,0)+1`, `recoveryPoints = 0`,
`lastUpdated = now` (creating the item if absent, without a `currentLevel`
attribute).  Then the level is decided from the post-increment count and the
pre-increment level (`Attributes.currentLevel || 1`), and a second update
writes `currentLevel` only when it changed. -/
def handleFailure (store : Store) (now : Nat) : MutOut × Store :=
  let item0 : Item :=
    match store with
    | none => { errorCount := none, currentLevel := none, recoveryPoints := none,
                lastUpdated := none }
    | some it => it
  let newErrorCount : Nat := item0.errorCount.getD 0 + 1
  let item1 : Item :=
    { item0 with errorCount := some newErrorCount, recoveryPoints := some 0,
                 lastUpdated := some now }
  let currentLevel : Nat := jsOr item1.currentLevel 1
  let newLevel : Nat :=
    if newErrorCount ≥ THRESHOLDS.DEGRADE_TO_L3 ∧ currentLevel < 3 then 3
    else if newErrorCount ≥ THRESHOLDS.DEGRADE_TO_L2 ∧ currentLevel < 2 then 2
    else currentLevel
  if newLevel ≠ currentLevel then
    let item2 : Item := { item1 with currentLevel := some newLevel, lastUpdated := some now }
    ({ action := "FAILURE", errorCount := newErrorCount, currentLevel := newLevel,
       recoveryPoints := none, levelChanged := true, lastUpdated := now, message := none },
     some item2)
  else
    ({ action := "FAILURE", errorCount := newErrorCount, currentLevel := currentLevel,
       recoveryPoints := none, levelChanged := false, lastUpdated := now, message := none },
     some item1)

/-- `handleSuccess` from mutator.js.  `eventHadErrorFlag` is the raw
`event.hadErrorFlag`; the code tests `event.hadErrorFlag === true`.
If no item exists the state is initialised to the defaults and returned
with no promotion.  Otherwise: at level 1 the error count is decremented
(`Math.max(0, x-1)`, which is `Nat` subtraction here); at levels 2/3 a
protected success (`hadErrorFlag`) is a stress signal and a genuine success
accumulates recovery points, promoting one level at the threshold. -/
def handleSuccess (store : Store) (eventHadErrorFlag : Option Bool) (now : Nat) :
    MutOut × Store :=
  let hadErrorFlag : Bool := eventHadErrorFlag == some true
  match store with
  | none =>
    let item : Item := { errorCount := some 0, currentLevel := some 1,
                         recoveryPoints := some 0, lastUpdated := some now }
    ({ action := "SUCCESS", errorCount := 0, currentLevel := 1, recoveryPoints := some 0,
       levelChanged := false, lastUpdated := now, message := none }, some item)
  | some it =>
    let currentErrorCount : Nat := jsOr it.errorCount 0
    let currentLevel : Nat := jsOr it.currentLevel 1
    let currentRecoveryPoints : Nat := jsOr it.recoveryPoints 0
    -- (newErrorCount, newLevel, newRecoveryPoints), mirroring the three branches
    let res : Nat × Nat × Nat :=
      if currentLevel = 1 then
        -- L1: decrement error count (Math.max(0, x-1)); recovery points not needed
        (currentErrorCount - 1, currentLevel, 0)
      else if hadErrorFlag then
        -- L2/L3 protected success: stress signal, may degrade further
        let nec := currentErrorCount + 1
        (nec,
         if nec ≥ THRESHOLDS.DEGRADE_TO_L3 ∧ currentLevel < 3 then 3 else currentLevel,
         0)
      else
        -- L2/L3 genuine success: accumulate recovery points, maybe promote
        let nrp := currentRecoveryPoints + 1
        if nrp ≥ THRESHOLDS.RECOVERY_POINTS then
          (0,
           if currentLevel = 3 then 2 else if currentLevel = 2 then 1 else currentLevel,
           0)
        else
          (currentErrorCount, currentLevel, nrp)
    let newErrorCount := res.1
    let newLevel := res.2.1
    let newRecoveryPoints := res.2.2
    let item2 : Item := { errorCount := some newErrorCount, currentLevel := some newLevel,
                          recoveryPoints := some newRecoveryPoints, lastUpdated := some now }
    ({ action := "SUCCESS", errorCount := newErrorCount, currentLevel := newLevel,
       recoveryPoints := some newRecoveryPoints, levelChanged := newLevel != currentLevel,
       lastUpdated := now, message := none }, some item2)

/-- `handleReset` from mutator.js: unconditionally writes the level-1 default
record and always reports `levelChanged: true`. -/
def handleReset (store : Store) (now : Nat) : MutOut × Store :=
  let item : Item := { errorCount := some 0, currentLevel := some 1,
                       recoveryPoints := some 0, lastUpdated := some now }
  ({ action := "RESET", errorCount := 0, currentLevel := 1, recoveryPoints := some 0,
     levelChanged := true, lastUpdated := now,
     message := some "System reset to Full Capacity" }, some item)

/-- The mutator's Lambda event: `action` and the optional `hadErrorFlag`. -/
structure Event where
  action : Option String
  hadErrorFlag : Option Bool
deriving DecidableEq, Repr

/-- The mutator `handler`: dispatches on `event.action`; any other action
throws `Unknown action` and touches nothing. -/
def handler (event : Event) (store : Store) (now : Nat) :
    Except String MutOut × Store :=
  if event.action = some "FAILURE" then
    let r := handleFailure store now
    (Except.ok r.1, r.2)
  else if event.action = some "SUCCESS" then
    let r := handleSuccess store event.hadErrorFlag now
    (Except.ok r.1, r.2)
  else if event.action = some "RESET" then
    let r := handleReset store now
    (Except.ok r.1, r.2)
  else
    (Except.error "Unknown action", store)

/-- The object returned by the get-state handler.  Each field is the raw
stored attribute (possibly `undefined`); note the handler never returns a
`recoveryPoints` key, and the absent-record default has no `lastUpdated`. -/
structure ReadOut where
  currentLevel : Option Nat
  errorCount : Option Nat
  recoveryPoints : Option Nat
  lastUpdated : Option Nat
deriving DecidableEq, Repr

/-- The get-state handler: a `GetCommand` point read.  If no record exists it
returns `{currentLevel: 1, errorCount: 0}`; otherwise the stored
`currentLevel`, `errorCount` and `lastUpdated` as they are.  The second
component is the store after the call (a read never writes). -/
def getState (store : Store) : ReadOut × Store :=
  match store with
  | none =>
    ({ currentLevel := some 1, errorCount := some 0, recoveryPoints := none,
       lastUpdated := none }, none)
  | some it =>
    ({ currentLevel := it.currentLevel, errorCount := it.errorCount,
       recoveryPoints := none, lastUpdated := it.lastUpdated }, some it)

/-- The default record the spec's state machine starts from
(`tier=1, errorCount=0, recoveryPoints=0`), with an arbitrary timestamp. -/
def defaultItem (t : Option Nat) : Item :=
  { errorCount := some 0, currentLevel := some 1, recoveryPoints := some 0,
    lastUpdated := t }

def defaultStore (t : Option Nat) : Store := some (defaultItem t)

/-- The tier the mutator sees in a store (`currentLevel || 1`). -/
def tierOf (s : Store) : Nat := jsOr (s.bind Item.currentLevel) 1

/-- `n` consecutive FAILURE transitions (all stamped `now`). -/
def iterFailure : Nat → Store → Nat → Store
  | 0, s, _ => s
  | n + 1, s, now => iterFailure n (handleFailure s now).2 now

/-- `n` consecutive SUCCESS transitions with the given `hadErrorFlag`. -/
def iterSuccess : Nat → Store → Option Bool → Nat → Store
  | 0, s, _, _ => s
  | n + 1, s, flag, now => iterSuccess n (handleSuccess s flag now).2 flag now

/-- States reachable from the default record by FAILURE, SUCCESS and RESET
transitions. -/
inductive Reachable : Store → Prop where
  | start (t : Option Nat) : Reachable (defaultStore t)
  | fail {s : Store} (h : Reachable s) (now : Nat) : Reachable (handleFailure s now).2
  | succ {s : Store} (h : Reachable s) (flag : Option Bool) (now : Nat) :
      Reachable (handleSuccess s flag now).2
  | reset {s : Store} (h : Reachable s) (now : Nat) : Reachable (handleReset s now).2

end ResilientService

namespace ResilientService

lemma jsOr_pos (n d : Nat) (h : 1 ≤ n) : jsOr (some n) d = n := by
  cases n with
  | zero => omega
  | succ k => simp [jsOr]

lemma jsOr_zero_default (n : Nat) : jsOr (some n) 0 = n := by
  cases n <;> simp [jsOr]

lemma handleFailure_store_eq (e l r : Nat) (u : Option Nat) (now : Nat) (hl : 1 ≤ l) :
    (handleFailure (some ⟨some e, some l, some r, u⟩) now).2 =
      some ⟨some (e + 1),
            some (if e + 1 ≥ 10 ∧ l < 3 then 3 else if e + 1 ≥ 5 ∧ l < 2 then 2 else l),
            some 0, some now⟩ := by
  simp only [handleFailure, THRESHOLDS, Option.getD, jsOr_pos _ _ hl]
  split_ifs <;> simp_all

lemma handleSuccess_l1_eq (e r : Nat) (u : Option Nat) (flag : Option Bool) (now : Nat) :
    handleSuccess (some ⟨some e, some 1, some r, u⟩) flag now =
      ({ action := "SUCCESS", errorCount := e - 1, currentLevel := 1,
         recoveryPoints := some 0, levelChanged := false, lastUpdated := now,
         message := none },
       some ⟨some (e - 1), some 1, some 0, some now⟩) := by
  cases e with
  | zero => rfl
  | succ k => simp [handleSuccess, jsOr]

lemma handleSuccess_protected_eq (e l r : Nat) (u : Option Nat) (now : Nat) (hl : 2 ≤ l) :
    (handleSuccess (some ⟨some e, some l, some r, u⟩) (some true) now).2 =
      some ⟨some (e + 1), some (if e + 1 ≥ 10 ∧ l < 3 then 3 else l),
            some 0, some now⟩ := by
  have hne : ¬ (l = 1) := by omega
  simp only [handleSuccess, THRESHOLDS, jsOr_pos _ _ (by omega : 1 ≤ l), jsOr_zero_default,
    hne, if_false, beq_self_eq_true, if_true]

lemma handleSuccess_genuine_eq (e l r : Nat) (u : Option Nat) (now : Nat) (flag : Option Bool)
    (hfl : flag ≠ some true) (hl : 2 ≤ l) :
    (handleSuccess (some ⟨some e, some l, some r, u⟩) flag now).2 =
      if r + 1 ≥ 10 then
        some ⟨some 0, some (if l = 3 then 2 else if l = 2 then 1 else l), some 0, some now⟩
      else
        some ⟨some e, some l, some (r + 1), some now⟩ := by
  have hb : (flag == some true) = false := by
    cases flag with
    | none => rfl
    | some b => cases b <;> simp_all
  have hne : ¬ (l = 1) := by omega
  simp only [handleSuccess, THRESHOLDS, jsOr_pos _ _ (by omega : 1 ≤ l), jsOr_zero_default,
    hb, hne, if_false, Bool.false_eq_true]
  split_ifs <;> simp_all

/-- The structural invariant maintained from the default record. -/
def Inv (s : Store) : Prop :=
  ∃ e l r u, s = some ⟨some e, some l, some r, u⟩
    ∧ 1 ≤ l ∧ l ≤ 3 ∧ (l = 1 → e ≤ 4)

lemma inv_mk (e l r : Nat) (u : Option Nat) (h1 : 1 ≤ l) (h2 : l ≤ 3)
    (h3 : l = 1 → e ≤ 4) : Inv (some ⟨some e, some l, some r, u⟩) :=
  ⟨e, l, r, u, rfl, h1, h2, h3⟩

lemma inv_handleFailure {s : Store} (h : Inv s) (now : Nat) :
    Inv (handleFailure s now).2 := by
  obtain ⟨e, l, r, u, rfl, h1, h2, h3⟩ := h
  rw [handleFailure_store_eq e l r u now h1]
  refine inv_mk _ _ _ _ ?_ ?_ ?_
  · split_ifs <;> omega
  · split_ifs <;> omega
  · intro hx
    split_ifs at hx <;> omega

lemma inv_handleSuccess {s : Store} (h : Inv s) (flag : Option Bool) (now : Nat) :
    Inv (handleSuccess s flag now).2 := by
  obtain ⟨e, l, r, u, rfl, h1, h2, h3⟩ := h
  by_cases hl1 : l = 1
  · subst hl1
    rw [handleSuccess_l1_eq]
    exact ⟨e - 1, 1, 0, some now, rfl, by omega, by omega, fun _ => by omega⟩
  · by_cases hfl : flag = some true
    · subst hfl
      rw [handleSuccess_protected_eq e l r u now (by omega)]
      refine inv_mk _ _ _ _ ?_ ?_ ?_
      · split_ifs <;> omega
      · split_ifs <;> omega
      · intro hx
        split_ifs at hx <;> omega
    · rw [handleSuccess_genuine_eq e l r u now flag hfl (by omega)]
      by_cases hr : r + 1 ≥ 10
      · rw [if_pos hr]
        refine inv_mk _ _ _ _ ?_ ?_ ?_
        · split_ifs <;> omega
        · split_ifs <;> omega
        · intro hx
          split_ifs at hx <;> omega
      · rw [if_neg hr]
        exact inv_mk e l (r + 1) (some now) (by omega) (by omega) h3

lemma inv_handleReset (s : Store) (now : Nat) : Inv (handleReset s now).2 :=
  ⟨0, 1, 0, some now, rfl, by omega, by omega, fun _ => by omega⟩

lemma reachable_inv {s : Store} (h : Reachable s) : Inv s := by
  induction h with
  | start t => exact ⟨0, 1, 0, t, rfl, by omega, by omega, fun _ => by omega⟩
  | fail _ now ih => exact inv_handleFailure ih now
  | succ _ flag now ih => exact inv_handleSuccess ih flag now
  | reset _ now ih => exact inv_handleReset _ now

end ResilientService

namespace ResilientService

lemma tierOf_some (e l r : Nat) (u : Option Nat) (h : 1 ≤ l) :
    tierOf (some ⟨some e, some l, some r, u⟩) = l := by
  simp only [tierOf, Option.bind]
  exact jsOr_pos _ _ h

/-- After any FAILURE transition the stored record exists and its
`recoveryPoints` attribute is exactly 0 (the first atomic update always sets
`recoveryPoints = 0` and the second never touches it). -/
lemma recovery_zero_after_failure (s : Store) (now : Nat) :
    ((handleFailure s now).2).bind Item.recoveryPoints = some 0 := by
  rcases s with _ | ⟨a, b, c, d⟩ <;>
    · simp only [handleFailure]
      split_ifs <;> rfl

/-- After any protected SUCCESS transition (`hadErrorFlag = true`) the stored
record exists with `recoveryPoints` exactly 0: the level-1 branch, the
protected branch and the initialisation branch all write 0. -/
lemma recovery_zero_after_protected (s : Store) (now : Nat) :
    ((handleSuccess s (some true) now).2).bind Item.recoveryPoints = some 0 := by
  rcases s with _ | ⟨a, b, c, d⟩
  · rfl
  · simp only [handleSuccess, beq_self_eq_true, eq_self_iff_true, if_true]
    split_ifs <;> rfl

/-- A genuine success applied to a record whose `recoveryPoints` is 0 never
changes the level: at level 1 nothing changes, and at levels 2/3 the new
recovery streak is 1 < RECOVERY_POINTS. -/
lemma genuine_no_change_of_rp0 (a b d : Option Nat) (flag : Option Bool)
    (hfl : flag ≠ some true) (now : Nat) :
    (handleSuccess (some ⟨a, b, some 0, d⟩) flag now).1.levelChanged = false ∧
      tierOf (handleSuccess (some ⟨a, b, some 0, d⟩) flag now).2 =
        tierOf (some ⟨a, b, some 0, d⟩) := by
  have hb : (flag == some true) = false := by
    cases flag with
    | none => rfl
    | some x => cases x <;> simp_all
  rcases b with _ | lb
  · simp [handleSuccess, hb, tierOf, jsOr]
  · rcases lb with _ | k
    · simp [handleSuccess, hb, tierOf, jsOr]
    · by_cases hk : k = 0
      · subst hk
        simp [handleSuccess, hb, tierOf, jsOr]
      · simp [handleSuccess, hb, tierOf, jsOr, hk, THRESHOLDS]

/-- C1: for every state reachable from the default record by FAILURE, SUCCESS
and RESET transitions, one `handleFailure` leaves the tier unchanged or raises
it by exactly one step (it never lowers it), and one `handleSuccess` leaves
the tier unchanged or lowers it by exactly one step, except that a protected
success (`hadErrorFlag = true`) may raise it by exactly one step, to tier 3.
In particular no single transition ever skips a tier. -/
theorem C1_reachable_tier_changes_single_step (s : Store) (h : Reachable s)
    (now : Nat) (flag : Option Bool) :
    (tierOf (handleFailure s now).2 = tierOf s ∨
       tierOf (handleFailure s now).2 = tierOf s + 1)
    ∧ (tierOf (handleSuccess s flag now).2 = tierOf s ∨
       tierOf (handleSuccess s flag now).2 + 1 = tierOf s ∨
       (flag = some true ∧ tierOf (handleSuccess s flag now).2 = tierOf s + 1 ∧
         tierOf (handleSuccess s flag now).2 = 3)) := by
  obtain ⟨e, l, r, u, rfl, h1, h2, h3⟩ := reachable_inv h
  rw [tierOf_some e l r u h1]
  constructor
  · rw [handleFailure_store_eq e l r u now h1,
        tierOf_some _ _ _ _ (by split_ifs <;> omega)]
    split_ifs <;> omega
  · by_cases hl1 : l = 1
    · subst hl1
      rw [handleSuccess_l1_eq e r u flag now]
      rw [tierOf_some _ _ _ _ (by omega)]
      left
      rfl
    · by_cases hfl : flag = some true
      · subst hfl
        rw [handleSuccess_protected_eq e l r u now (by omega)]
        rw [tierOf_some _ _ _ _ (by split_ifs <;> omega)]
        by_cases hc : e + 1 ≥ 10 ∧ l < 3
        · rw [if_pos hc]
          right; right
          exact ⟨rfl, by omega, rfl⟩
        · rw [if_neg hc]
          left; rfl
      · rw [handleSuccess_genuine_eq e l r u now flag hfl (by omega)]
        by_cases hr : r + 1 ≥ 10
        · rw [if_pos hr]
          rw [tierOf_some _ _ _ _ (by split_ifs <;> omega)]
          right; left
          split_ifs <;> omega
        · rw [if_neg hr]
          rw [tierOf_some _ _ _ _ (by omega)]
          left; rfl

/-- Witness for C1 at the default record, `now = 0`, protected flag. -/
theorem C1_reachable_tier_changes_single_step_witness :
    Reachable (defaultStore (some 0))
    ∧ ((tierOf (handleFailure (defaultStore (some 0)) 0).2 = tierOf (defaultStore (some 0)) ∨
          tierOf (handleFailure (defaultStore (some 0)) 0).2 =
            tierOf (defaultStore (some 0)) + 1)
       ∧ (tierOf (handleSuccess (defaultStore (some 0)) (some true) 0).2 =
            tierOf (defaultStore (some 0)) ∨
          tierOf (handleSuccess (defaultStore (some 0)) (some true) 0).2 + 1 =
            tierOf (defaultStore (some 0)) ∨
          ((some true : Option Bool) = some true ∧
            tierOf (handleSuccess (defaultStore (some 0)) (some true) 0).2 =
              tierOf (defaultStore (some 0)) + 1 ∧
            tierOf (handleSuccess (defaultStore (some 0)) (some true) 0).2 = 3))) :=
  ⟨Reachable.start (some 0),
   C1_reachable_tier_changes_single_step (defaultStore (some 0))
     (Reachable.start (some 0)) 0 (some true)⟩

end ResilientService

namespace ResilientService

/-- C2: at tier 2 or 3 a genuine success (`hadErrorFlag = false`) increments
`recoveryPoints` by 1; when the incremented value reaches
RECOVERY_POINTS = 10 the tier is promoted by exactly one step (3 to 2 or
2 to 1) and both `errorCount` and `recoveryPoints` are set to exactly 0;
otherwise the tier and `errorCount` are unchanged. -/
theorem C2_genuine_success_recovery_accounting (l e r : Nat) (u : Option Nat)
    (now : Nat) (hl : l = 2 ∨ l = 3) :
    (r + 1 < 10 →
      (handleSuccess (some ⟨some e, some l, some r, u⟩) (some false) now).2 =
        some ⟨some e, some l, some (r + 1), some now⟩)
    ∧ (r + 1 ≥ 10 →
      (handleSuccess (some ⟨some e, some l, some r, u⟩) (some false) now).2 =
        some ⟨some 0, some (l - 1), some 0, some now⟩) := by
  have hl2 : 2 ≤ l := by rcases hl with rfl | rfl <;> omega
  have hfl : (some false : Option Bool) ≠ some true := by simp
  constructor
  · intro hr
    rw [handleSuccess_genuine_eq e l r u now (some false) hfl hl2, if_neg (by omega)]
  · intro hr
    rw [handleSuccess_genuine_eq e l r u now (some false) hfl hl2, if_pos hr]
    rcases hl with rfl | rfl <;> norm_num

/-- Witness for C2 at tier 2, `errorCount = 3`, `recoveryPoints = 9`. -/
theorem C2_genuine_success_recovery_accounting_witness :
    ((2 : Nat) = 2 ∨ (2 : Nat) = 3)
    ∧ ((9 + 1 < 10 →
        (handleSuccess (some ⟨some 3, some 2, some 9, none⟩) (some false) 0).2 =
          some ⟨some 3, some 2, some (9 + 1), some 0⟩)
      ∧ (9 + 1 ≥ 10 →
        (handleSuccess (some ⟨some 3, some 2, some 9, none⟩) (some false) 0).2 =
          some ⟨some 0, some (2 - 1), some 0, some 0⟩)) :=
  ⟨Or.inl rfl, C2_genuine_success_recovery_accounting 2 3 9 none 0 (Or.inl rfl)⟩

/-- C3: from any state at tier 2 or 3, after 9 consecutive genuine successes
followed by one FAILURE (or one protected success), the stored
`recoveryPoints` is exactly 0, and the next (10th) genuine success after that
interruption does not change the tier: no promotion happens. -/
theorem C3_recovery_reset_on_interruption (l e r : Nat) (u : Option Nat)
    (now now2 now3 : Nat) (hl : l = 2 ∨ l = 3) :
    ((handleFailure (iterSuccess 9 (some ⟨some e, some l, some r, u⟩) (some false) now)
        now2).2.bind Item.recoveryPoints = some 0)
    ∧ ((handleSuccess (iterSuccess 9 (some ⟨some e, some l, some r, u⟩) (some false) now)
        (some true) now2).2.bind Item.recoveryPoints = some 0)
    ∧ ((handleSuccess
          (handleFailure (iterSuccess 9 (some ⟨some e, some l, some r, u⟩) (some false) now)
            now2).2 (some false) now3).1.levelChanged = false
        ∧ tierOf (handleSuccess
            (handleFailure (iterSuccess 9 (some ⟨some e, some l, some r, u⟩) (some false) now)
              now2).2 (some false) now3).2 =
          tierOf (handleFailure (iterSuccess 9 (some ⟨some e, some l, some r, u⟩)
              (some false) now) now2).2)
    ∧ ((handleSuccess
          (handleSuccess (iterSuccess 9 (some ⟨some e, some l, some r, u⟩) (some false) now)
            (some true) now2).2 (some false) now3).1.levelChanged = false
        ∧ tierOf (handleSuccess
            (handleSuccess (iterSuccess 9 (some ⟨some e, some l, some r, u⟩) (some false) now)
              (some true) now2).2 (some false) now3).2 =
          tierOf (handleSuccess (iterSuccess 9 (some ⟨some e, some l, some r, u⟩)
              (some false) now) (some true) now2).2) := by
  set s9 : Store := iterSuccess 9 (some ⟨some e, some l, some r, u⟩) (some false) now
  refine ⟨recovery_zero_after_failure s9 now2, recovery_zero_after_protected s9 now2, ?_, ?_⟩
  · have h0 := recovery_zero_after_failure s9 now2
    rcases hsf : (handleFailure s9 now2).2 with _ | ⟨a, b, c, d⟩
    · rw [hsf] at h0
      simp at h0
    · rw [hsf] at h0
      simp only [Option.some_bind] at h0
      subst h0
      exact genuine_no_change_of_rp0 a b d (some false) (by simp) now3
  · have h0 := recovery_zero_after_protected s9 now2
    rcases hsp : (handleSuccess s9 (some true) now2).2 with _ | ⟨a, b, c, d⟩
    · rw [hsp] at h0
      simp at h0
    · rw [hsp] at h0
      simp only [Option.some_bind] at h0
      subst h0
      exact genuine_no_change_of_rp0 a b d (some false) (by simp) now3

/-- Witness for C3 at tier 2 with all counters 0 and timestamps 0. -/
theorem C3_recovery_reset_on_interruption_witness :
    ((2 : Nat) = 2 ∨ (2 : Nat) = 3)
    ∧ (((handleFailure (iterSuccess 9 (some ⟨some 0, some 2, some 0, none⟩) (some false) 0)
          0).2.bind Item.recoveryPoints = some 0)
      ∧ ((handleSuccess (iterSuccess 9 (some ⟨some 0, some 2, some 0, none⟩) (some false) 0)
          (some true) 0).2.bind Item.recoveryPoints = some 0)
      ∧ ((handleSuccess
            (handleFailure (iterSuccess 9 (some ⟨some 0, some 2, some 0, none⟩) (some false) 0)
              0).2 (some false) 0).1.levelChanged = false
          ∧ tierOf (handleSuccess
              (handleFailure (iterSuccess 9 (some ⟨some 0, some 2, some 0, none⟩) (some false) 0)
                0).2 (some false) 0).2 =
            tierOf (handleFailure (iterSuccess 9 (some ⟨some 0, some 2, some 0, none⟩)
                (some false) 0) 0).2)
      ∧ ((handleSuccess
            (handleSuccess (iterSuccess 9 (some ⟨some 0, some 2, some 0, none⟩) (some false) 0)
              (some true) 0).2 (some false) 0).1.levelChanged = false
          ∧ tierOf (handleSuccess
              (handleSuccess (iterSuccess 9 (some ⟨some 0, some 2, some 0, none⟩) (some false) 0)
                (some true) 0).2 (some false) 0).2 =
            tierOf (handleSuccess (iterSuccess 9 (some ⟨some 0, some 2, some 0, none⟩)
                (some false) 0) (some true) 0).2)) :=
  ⟨Or.inl rfl, C3_recovery_reset_on_interruption 2 0 0 none 0 0 0 (Or.inl rfl)⟩

end ResilientService

namespace ResilientService

/-- C4: at tier 2 or 3 a protected success (`hadErrorFlag = true`) increments
`errorCount` by 1 and sets `recoveryPoints` to 0, and when the incremented
`errorCount` reaches DEGRADE_TO_L3 = 10 with the tier below 3 the tier is set
to 3.  In particular, from tier 2 with `errorCount = 5`, ten consecutive
protected successes end at tier 3 with `recoveryPoints = 0` after every one
of the ten steps (`k` ranges over the steps). -/
theorem C4_protected_success_stress_signal (l e r : Nat) (u : Option Nat)
    (now : Nat) (k : Nat) (hl : l = 2 ∨ l = 3) (hk : k < 10) :
    ((handleSuccess (some ⟨some e, some l, some r, u⟩) (some true) now).2 =
      some ⟨some (e + 1), some (if e + 1 ≥ 10 ∧ l < 3 then 3 else l), some 0, some now⟩)
    ∧ iterSuccess 10 (some ⟨some 5, some 2, some 0, some 0⟩) (some true) 1 =
        some ⟨some 15, some 3, some 0, some 1⟩
    ∧ (iterSuccess (k + 1) (some ⟨some 5, some 2, some 0, some 0⟩) (some true) 1).bind
        Item.recoveryPoints = some 0 := by
  refine ⟨handleSuccess_protected_eq e l r u now (by rcases hl with rfl | rfl <;> omega),
    by decide, ?_⟩
  interval_cases k <;> decide

/-- Witness for C4 at tier 2, `errorCount = 9` (the degrading call), `k = 7`. -/
theorem C4_protected_success_stress_signal_witness :
    ((2 : Nat) = 2 ∨ (2 : Nat) = 3)
    ∧ (7 : Nat) < 10
    ∧ (((handleSuccess (some ⟨some 9, some 2, some 4, none⟩) (some true) 0).2 =
        some ⟨some (9 + 1), some (if 9 + 1 ≥ 10 ∧ 2 < 3 then 3 else 2), some 0, some 0⟩)
      ∧ iterSuccess 10 (some ⟨some 5, some 2, some 0, some 0⟩) (some true) 1 =
          some ⟨some 15, some 3, some 0, some 1⟩
      ∧ (iterSuccess (7 + 1) (some ⟨some 5, some 2, some 0, some 0⟩) (some true) 1).bind
          Item.recoveryPoints = some 0) :=
  ⟨Or.inl rfl, by decide,
   C4_protected_success_stress_signal 2 9 4 none 0 7 (Or.inl rfl) (by decide)⟩

/-- C5: from the default record, 5 consecutive FAILURE transitions end at
tier 2 with `errorCount = 5` and `recoveryPoints = 0`, while 4 of them leave
the tier at 1 (degrading 1 to 2 requires exactly 5 accumulated errors); from
tier 2 a FAILURE degrades to tier 3 exactly when the post-increment
`errorCount` reaches 10; and in general a FAILURE increments `errorCount` by
1, resets `recoveryPoints` to 0, and decides the new level from the
post-increment `errorCount` and the pre-increment tier. -/
theorem C5_failure_hysteresis_thresholds (t : Option Nat) (now : Nat)
    (e l r : Nat) (u : Option Nat) (hl1 : 1 ≤ l) (hl2 : l ≤ 3) :
    (iterFailure 5 (defaultStore t) now = some ⟨some 5, some 2, some 0, some now⟩)
    ∧ (iterFailure 4 (defaultStore t) now = some ⟨some 4, some 1, some 0, some now⟩)
    ∧ ((handleFailure (some ⟨some e, some 2, some r, u⟩) now).2.bind Item.currentLevel =
        some (if e + 1 ≥ 10 then 3 else 2))
    ∧ ((handleFailure (some ⟨some e, some l, some r, u⟩) now).2 =
        some ⟨some (e + 1),
              some (if e + 1 ≥ 10 ∧ l < 3 then 3
                    else if e + 1 ≥ 5 ∧ l < 2 then 2 else l),
              some 0, some now⟩) := by
  have step : ∀ e2 r2 : Nat, ∀ u2 : Option Nat, e2 + 1 < 5 →
      (handleFailure (some ⟨some e2, some 1, some r2, u2⟩) now).2 =
        some ⟨some (e2 + 1), some 1, some 0, some now⟩ := by
    intro e2 r2 u2 he
    rw [handleFailure_store_eq e2 1 r2 u2 now (by omega)]
    have hc1 : ¬ (e2 + 1 ≥ 10 ∧ 1 < 3) := by omega
    have hc2 : ¬ (e2 + 1 ≥ 5 ∧ 1 < 2) := by omega
    rw [if_neg hc1, if_neg hc2]
  have c4 : iterFailure 4 (defaultStore t) now = some ⟨some 4, some 1, some 0, some now⟩ := by
    show iterFailure 4 (some ⟨some 0, some 1, some 0, t⟩) now = _
    simp only [iterFailure]
    rw [step 0 0 t (by omega), step 1 0 (some now) (by omega),
        step 2 0 (some now) (by omega), step 3 0 (some now) (by omega)]
  have c5 : iterFailure 5 (defaultStore t) now = some ⟨some 5, some 2, some 0, some now⟩ := by
    have hstep5 : iterFailure 5 (defaultStore t) now =
        (handleFailure (iterFailure 4 (defaultStore t) now) now).2 := by
      simp only [iterFailure]
    rw [hstep5, c4, handleFailure_store_eq 4 1 0 (some now) now (by omega)]
    norm_num
  refine ⟨c5, c4, ?_, handleFailure_store_eq e l r u now hl1⟩
  rw [handleFailure_store_eq e 2 r u now (by omega)]
  simp only [Option.some_bind]
  split_ifs <;> simp_all

/-- Witness for C5 with `t = none`, `now = 3`, and the generic state at
tier 2 with `errorCount = 8`. -/
theorem C5_failure_hysteresis_thresholds_witness :
    (1 : Nat) ≤ 2
    ∧ (2 : Nat) ≤ 3
    ∧ ((iterFailure 5 (defaultStore none) 3 = some ⟨some 5, some 2, some 0, some 3⟩)
      ∧ (iterFailure 4 (defaultStore none) 3 = some ⟨some 4, some 1, some 0, some 3⟩)
      ∧ ((handleFailure (some ⟨some 8, some 2, some 6, some 1⟩) 3).2.bind Item.currentLevel =
          some (if 8 + 1 ≥ 10 then 3 else 2))
      ∧ ((handleFailure (some ⟨some 8, some 2, some 6, some 1⟩) 3).2 =
          some ⟨some (8 + 1),
                some (if 8 + 1 ≥ 10 ∧ 2 < 3 then 3
                      else if 8 + 1 ≥ 5 ∧ 2 < 2 then 2 else 2),
                some 0, some 3⟩)) :=
  ⟨by decide, by decide,
   C5_failure_hysteresis_thresholds none 3 8 2 6 (some 1) (by decide) (by decide)⟩

end ResilientService

namespace ResilientService

/-- C6: RESET from any state stores exactly
`{errorCount: 0, currentLevel: 1, recoveryPoints: 0, lastUpdated: now}`;
calling it twice in a row returns the identical result both times; the result
does not depend on the prior state at all; and it always reports
`levelChanged = true`. -/
theorem C6_reset_idempotent (s s2 : Store) (now : Nat) :
    (handleReset s now).2 = some ⟨some 0, some 1, some 0, some now⟩
    ∧ handleReset ((handleReset s now).2) now = handleReset s now
    ∧ handleReset s now = handleReset s2 now
    ∧ (handleReset s now).1.levelChanged = true :=
  ⟨rfl, rfl, rfl, rfl⟩

/-- C7 counterexample: the claim says a read returns the stored record's
recovery count, but for the concrete stored record with `recoveryPoints = 5`
the get-state result does not carry that value (the handler never returns a
`recoveryPoints` key). -/
theorem C7_read_result_counterexample :
    (getState (some ⟨some 3, some 2, some 5, some 9⟩)).1.recoveryPoints ≠
      (⟨some 3, some 2, some 5, some 9⟩ : Item).recoveryPoints := by
  decide

/-- C7 amended: for every stored record, the get-state result carries the
record's `currentLevel`, `errorCount` and `lastUpdated` exactly as stored,
but never a recovery count: its `recoveryPoints` field is always absent. -/
theorem C7_read_returns_tier_and_errors_not_recovery (it : Item) :
    (getState (some it)).1 =
      { currentLevel := it.currentLevel, errorCount := it.errorCount,
        recoveryPoints := none, lastUpdated := it.lastUpdated } :=
  rfl

/-- C8: reading when no record exists returns the default
`{currentLevel: 1, errorCount: 0}` and leaves the store absent; and a read
never changes the store in any case (reads are side-effect-free). -/
theorem C8_read_default_on_absence_no_side_effect :
    (getState none).1 = { currentLevel := some 1, errorCount := some 0,
                          recoveryPoints := none, lastUpdated := none }
    ∧ (getState none).2 = none
    ∧ ∀ s : Store, (getState s).2 = s := by
  refine ⟨rfl, rfl, fun s => ?_⟩
  cases s <;> rfl

/-- C9: the mutator handler returns an error exactly when the requested
action is none of FAILURE, SUCCESS, RESET, and in that case it raises
`Unknown action` and leaves the stored state untouched. -/
theorem C9_unknown_action_raises (event : Event) (s : Store) (now : Nat) :
    ((handler event s now).1.isOk = false ↔
      (event.action ≠ some "FAILURE" ∧ event.action ≠ some "SUCCESS" ∧
        event.action ≠ some "RESET"))
    ∧ (event.action ≠ some "FAILURE" → event.action ≠ some "SUCCESS" →
        event.action ≠ some "RESET" →
        (handler event s now).1 = Except.error "Unknown action" ∧
          (handler event s now).2 = s) := by
  unfold handler
  split_ifs with h1 h2 h3 <;> simp_all [Except.isOk, Except.toBool]

/-- Witness for C9 on the unknown action PING against the default store. -/
theorem C9_unknown_action_raises_witness :
    ((handler ⟨some "PING", none⟩ (defaultStore (some 0)) 1).1.isOk = false ↔
      ((⟨some "PING", none⟩ : Event).action ≠ some "FAILURE" ∧
        (⟨some "PING", none⟩ : Event).action ≠ some "SUCCESS" ∧
        (⟨some "PING", none⟩ : Event).action ≠ some "RESET"))
    ∧ ((⟨some "PING", none⟩ : Event).action ≠ some "FAILURE" →
        (⟨some "PING", none⟩ : Event).action ≠ some "SUCCESS" →
        (⟨some "PING", none⟩ : Event).action ≠ some "RESET" →
        (handler ⟨some "PING", none⟩ (defaultStore (some 0)) 1).1 =
            Except.error "Unknown action" ∧
          (handler ⟨some "PING", none⟩ (defaultStore (some 0)) 1).2 =
            defaultStore (some 0)) :=
  C9_unknown_action_raises ⟨some "PING", none⟩ (defaultStore (some 0)) 1

/-- C10: when the first mutations ever applied to an absent store are `n`
FAILURE transitions with `n ≤ 4` (no tier change triggered), the stored
record has `errorCount = n`, `recoveryPoints = 0` and a `lastUpdated` value
but no `currentLevel` attribute; a subsequent get-state read returns a record
whose `currentLevel` field is absent; and the mutator itself treats the
missing level as tier 1 (its `|| 1` default): a genuine success runs the
level-1 branch, decrementing `errorCount` and writing `currentLevel = 1`. -/
theorem C10_first_failures_store_no_currentLevel (n now now2 : Nat)
    (h1 : 1 ≤ n) (h2 : n ≤ 4) :
    iterFailure n none now = some ⟨some n, none, some 0, some now⟩
    ∧ (getState (iterFailure n none now)).1.currentLevel = none
    ∧ tierOf (iterFailure n none now) = 1
    ∧ (handleSuccess (iterFailure n none now) (some false) now2).1.currentLevel = 1
    ∧ (handleSuccess (iterFailure n none now) (some false) now2).2 =
        some ⟨some (n - 1), some 1, some 0, some now2⟩ := by
  interval_cases n <;> exact ⟨rfl, rfl, rfl, rfl, rfl⟩

/-- Witness for C10 with two initial failures. -/
theorem C10_first_failures_store_no_currentLevel_witness :
    (1 : Nat) ≤ 2
    ∧ (2 : Nat) ≤ 4
    ∧ (iterFailure 2 none 5 = some ⟨some 2, none, some 0, some 5⟩
      ∧ (getState (iterFailure 2 none 5)).1.currentLevel = none
      ∧ tierOf (iterFailure 2 none 5) = 1
      ∧ (handleSuccess (iterFailure 2 none 5) (some false) 8).1.currentLevel = 1
      ∧ (handleSuccess (iterFailure 2 none 5) (some false) 8).2 =
          some ⟨some (2 - 1), some 1, some 0, some 8⟩) :=
  ⟨by decide, by decide,
   C10_first_failures_store_no_currentLevel 2 5 8 (by decide) (by decide)⟩

end ResilientService
